import Mathlib

/-!
Verification development for the intelligence-gathering core of the
beta-trader repository.

Each definition below is a shallow embedding of a Python definition from
the repository (file and symbol named in its doc comment).  Python floats
are modelled as exact rationals, Python lists as Lean lists, exceptions as
explicit sum types, and the outcome of an HTTP backend as an explicit
parameter.  Theorems at the end of the file settle the specification
claims against these embeddings.
-/

/-! ## Data model: src/intel/types.py -/

/-- Embeds IntelDepth (src/intel/types.py). -/
inductive IntelDepth where
  | SHALLOW
  | STANDARD
  | DEEP
deriving DecidableEq

/-- Embeds SearchResult (src/intel/types.py): a raw hit from one source
before merging.  raw_data is opaque and not modelled. -/
structure SearchResult where
  url : Option String
  title : String
  snippet : String
  relevance_score : ℚ
deriving DecidableEq

/-- Embeds ScrapedContent (src/intel/types.py). -/
structure ScrapedContent where
  url : String
  title : String
  content : String
  markdown : String
  cost_usd : ℚ
  latency_ms : ℚ
deriving DecidableEq

/-- Embeds IntelSource (src/intel/types.py): one contribution to a result. -/
structure IntelSource where
  source_name : String
  url : Option String
  title : String
  snippet : String
  relevance_score : ℚ
  cost_usd : ℚ
  latency_ms : ℚ
deriving DecidableEq

/-- Embeds IntelResult (src/intel/types.py).  The timestamp and embeddings
fields play no role in any claim and are not modelled. -/
structure IntelResult where
  query_id : String
  correlation_id : String
  sources : List IntelSource
  merged_text : String
  depth_used : IntelDepth
  total_cost_usd : ℚ
  latency_ms : ℚ
  cached : Bool
deriving DecidableEq

/-! ## Cost constants: src/intel/sources/exa.py, tavily.py, firecrawl.py -/

/-- COST_PER_RESULT of src/intel/sources/exa.py. -/
def EXA_COST_PER_RESULT : ℚ := 0.0005

/-- COST_PER_SEARCH of src/intel/sources/tavily.py. -/
def TAVILY_COST_PER_SEARCH : ℚ := 0.01

/-- COST_PER_PAGE of src/intel/sources/firecrawl.py. -/
def COST_PER_PAGE : ℚ := 0.001

/-! ## Orchestrator merging: src/intel/orchestrator.py -/

/-- Embeds the per-result cost attribution of
IntelOrchestrator._convert_search_results (src/intel/orchestrator.py):
exa pays per result, any other source spreads the flat search fee over
max(len(results), 1). -/
def per_result_cost (source_name : String) (result_count : Nat) : ℚ :=
  if source_name = "exa" then EXA_COST_PER_RESULT
  else TAVILY_COST_PER_SEARCH / (max result_count 1 : ℚ)

/-- Embeds IntelOrchestrator._convert_search_results
(src/intel/orchestrator.py lines 367-395). -/
def convert_search_results (results : List SearchResult) (source_name : String) :
    List IntelSource :=
  results.map fun r =>
    { source_name := source_name
      url := r.url
      title := r.title
      snippet := r.snippet
      relevance_score := r.relevance_score
      cost_usd := per_result_cost source_name results.length
      latency_ms := 0 }

/-- The Python truthiness test `if source.url:` of _deduplicate_sources:
a missing url and an empty-string url both count as url-less. -/
def url_key (s : IntelSource) : Option String :=
  match s.url with
  | some u => if u = "" then none else some u
  | none => none

/-- Embeds the `seen_urls` dict update of _deduplicate_sources
(src/intel/orchestrator.py lines 403-407): a later source with the same
url replaces the stored one exactly when its relevance_score is strictly
higher; the dict slot keeps its original position. -/
def upsert_by_url (seen : List IntelSource) (s : IntelSource) : List IntelSource :=
  match seen with
  | [] => [s]
  | t :: ts =>
    if url_key t = url_key s then
      (if t.relevance_score < s.relevance_score then s else t) :: ts
    else
      t :: upsert_by_url ts s

/-- Embeds the loop of _deduplicate_sources (src/intel/orchestrator.py
lines 400-409): url-bearing sources go through the seen_urls dict,
url-less sources are collected in order. -/
def dedup_loop (seen no_url : List IntelSource) :
    List IntelSource → List IntelSource × List IntelSource
  | [] => (seen, no_url)
  | s :: rest =>
    if (url_key s).isSome then dedup_loop (upsert_by_url seen s) no_url rest
    else dedup_loop seen (no_url ++ [s]) rest

/-- Sort key of _deduplicate_sources: `sort(key=relevance_score,
reverse=True)`, a stable descending sort. -/
def score_desc (a b : IntelSource) : Prop :=
  b.relevance_score ≤ a.relevance_score

instance : DecidableRel score_desc :=
  fun a b => inferInstanceAs (Decidable (b.relevance_score ≤ a.relevance_score))

instance : IsTotal IntelSource score_desc :=
  ⟨fun a b => le_total b.relevance_score a.relevance_score⟩

instance : IsTrans IntelSource score_desc :=
  ⟨fun _ _ _ h1 h2 => le_trans h2 h1⟩

/-- Embeds IntelOrchestrator._deduplicate_sources
(src/intel/orchestrator.py lines 397-414): dict-based url dedup keeping
the higher score, url-less sources appended, then ONE stable sort of the
whole concatenation by relevance_score descending. -/
def deduplicate_sources (sources : List IntelSource) : List IntelSource :=
  let split := dedup_loop [] [] sources
  List.insertionSort score_desc (split.1 ++ split.2)

/-- Embeds the snippet-similarity loop of IntelOrchestrator._merge_snippets
(src/intel/orchestrator.py lines 416-433). -/
def merge_snippets_loop (seen : List String) (parts : List String) :
    List IntelSource → List String
  | [] => parts
  | s :: rest =>
    let dedup_key := ((s.snippet.take 100).trim).toLower
    if dedup_key ≠ "" ∧ ¬ seen.contains dedup_key then
      let header :=
        if s.title ≠ "" then "[" ++ s.source_name ++ "] " ++ s.title
        else "[" ++ s.source_name ++ "]"
      merge_snippets_loop (seen ++ [dedup_key]) (parts ++ [header ++ "\n" ++ s.snippet]) rest
    else
      merge_snippets_loop seen parts rest

/-- Embeds IntelOrchestrator._merge_snippets (src/intel/orchestrator.py). -/
def merge_snippets (sources : List IntelSource) : String :=
  String.intercalate "\n\n" (merge_snippets_loop [] [] sources)

/-- Substring occurrence, used for the `p in r.url.lower()` test of
_extract_scrape_urls. -/
def contains_sub (hay pat : String) : Bool :=
  (hay.splitOn pat).length > 1

/-- skip_patterns of IntelOrchestrator._extract_scrape_urls
(src/intel/orchestrator.py lines 442-449). -/
def skip_patterns : List String :=
  ["twitter.com", "x.com", "reddit.com", "facebook.com", "youtube.com", "google.com"]

/-- Embeds the loop of IntelOrchestrator._extract_scrape_urls
(src/intel/orchestrator.py lines 435-452). -/
def extract_loop (max_urls : Nat) (urls : List String) :
    List SearchResult → List String
  | [] => urls
  | r :: rest =>
    match r.url with
    | some u =>
      if u ≠ "" ∧ urls.length < max_urls ∧
          ¬ skip_patterns.any (fun p => contains_sub u.toLower p) then
        extract_loop max_urls (urls ++ [u]) rest
      else
        extract_loop max_urls urls rest
    | none => extract_loop max_urls urls rest

/-- Embeds IntelOrchestrator._extract_scrape_urls with its default
max_urls = 5. -/
def extract_scrape_urls (results : List SearchResult) (max_urls : Nat) : List String :=
  extract_loop max_urls [] results

/-! ## Orchestrator gathering: src/intel/orchestrator.py

The three source clients are abstracted by their observable outcome for
the one query the orchestrator issues to each: a list of hits, or a raised
exception.  This is exactly the interface the orchestrator sees (it awaits
`search` and either gets a list or catches the exception). -/

/-- Outcome of one source call as the orchestrator observes it. -/
structure SourceBackends where
  exa_outcome : Except Unit (List SearchResult)
  tavily_outcome : Except Unit (List SearchResult)
  scraped : List ScrapedContent
  exa_rate_limited : Bool
  tavily_rate_limited : Bool

/-- A raised source call contributes no results (the orchestrator logs and
drops the failure); a successful one contributes its list. -/
def ok_results (o : Except Unit (List SearchResult)) : List SearchResult :=
  match o with
  | .ok l => l
  | .error _ => []

/-- Sum of cost_usd over a source list (the right side of the cost-sum
invariant of the spec, section 8). -/
def sum_source_costs (l : List IntelSource) : ℚ :=
  (l.map IntelSource.cost_usd).sum

/-- Embeds IntelOrchestrator._gather_shallow (src/intel/orchestrator.py
lines 206-225): exa only, no deduplication, cost = count * per-result fee.
A raised exa call propagates out of gather_intel. -/
def gather_shallow (query_id correlation_id : String) (b : SourceBackends) :
    Except Unit IntelResult :=
  match b.exa_outcome with
  | .error e => .error e
  | .ok exa_results =>
    let sources := convert_search_results exa_results "exa"
    .ok
      { query_id := query_id
        correlation_id := correlation_id
        sources := sources
        merged_text := merge_snippets sources
        depth_used := .SHALLOW
        total_cost_usd := exa_results.length * EXA_COST_PER_RESULT
        latency_ms := 0
        cached := false }

/-- The exa hit list a STANDARD query ends up with: empty when exa is
rate-limited (skipped) or its task raised (logged and dropped). -/
def standard_exa_results (b : SourceBackends) : List SearchResult :=
  if b.exa_rate_limited then [] else ok_results b.exa_outcome

/-- The tavily hit list a STANDARD query ends up with. -/
def standard_tavily_results (b : SourceBackends) : List SearchResult :=
  if b.tavily_rate_limited then [] else ok_results b.tavily_outcome

/-- The concatenated source list _gather_standard hands to
_deduplicate_sources (src/intel/orchestrator.py lines 296-300). -/
def standard_raw_sources (b : SourceBackends) : List IntelSource :=
  convert_search_results (standard_exa_results b) "exa"
    ++ convert_search_results (standard_tavily_results b) "tavily"

/-- The cost computed by _gather_standard (src/intel/orchestrator.py lines
302-305): per-result exa fee plus the flat tavily fee when tavily returned
anything. -/
def standard_cost (b : SourceBackends) : ℚ :=
  (standard_exa_results b).length * EXA_COST_PER_RESULT
    + (if standard_tavily_results b ≠ [] then TAVILY_COST_PER_SEARCH else 0)

/-- Embeds IntelOrchestrator._gather_standard (src/intel/orchestrator.py
lines 227-314).  Individual source failures are dropped, so this path
never raises. -/
def gather_standard (query_id correlation_id : String) (b : SourceBackends) :
    IntelResult :=
  let sources := deduplicate_sources (standard_raw_sources b)
  { query_id := query_id
    correlation_id := correlation_id
    sources := sources
    merged_text := merge_snippets sources
    depth_used := .STANDARD
    total_cost_usd := standard_cost b
    latency_ms := 0
    cached := false }

/-- Embeds the extra IntelSource built per scraped page in _gather_deep
(src/intel/orchestrator.py lines 341-353). -/
def fire_source_of (sc : ScrapedContent) : IntelSource :=
  { source_name := "firecrawl"
    url := some sc.url
    title := sc.title
    snippet := if sc.markdown ≠ "" then sc.markdown.take 500 else sc.content.take 500
    relevance_score := 0.8
    cost_usd := COST_PER_PAGE
    latency_ms := sc.latency_ms }

/-- The exa hits a DEEP query works from (raised exa propagates, handled in
gather_deep itself). -/
def deep_exa_results (b : SourceBackends) : List SearchResult :=
  ok_results b.exa_outcome

/-- The urls _gather_deep selects for scraping (up to 5, social media
filtered out). -/
def deep_urls_to_scrape (b : SourceBackends) : List String :=
  extract_scrape_urls (deep_exa_results b) 5

/-- The scraped pages _gather_deep consumes: batch_scrape is only invoked
when there is at least one url to scrape. -/
def deep_scraped_used (b : SourceBackends) : List ScrapedContent :=
  if deep_urls_to_scrape b ≠ [] then b.scraped else []

/-- The concatenated source list _gather_deep hands to
_deduplicate_sources (src/intel/orchestrator.py line 356). -/
def deep_raw_sources (b : SourceBackends) : List IntelSource :=
  convert_search_results (deep_exa_results b) "exa"
    ++ (deep_scraped_used b).map fire_source_of

/-- The cost computed by _gather_deep: per-result exa fee plus one page fee
per successful scrape (src/intel/orchestrator.py lines 327, 354). -/
def deep_cost (b : SourceBackends) : ℚ :=
  (deep_exa_results b).length * EXA_COST_PER_RESULT
    + (deep_scraped_used b).length * COST_PER_PAGE

/-- Embeds IntelOrchestrator._gather_deep (src/intel/orchestrator.py lines
316-365). -/
def gather_deep (query_id correlation_id : String) (b : SourceBackends) :
    Except Unit IntelResult :=
  match b.exa_outcome with
  | .error e => .error e
  | .ok _ =>
    let sources := deduplicate_sources (deep_raw_sources b)
    .ok
      { query_id := query_id
        correlation_id := correlation_id
        sources := sources
        merged_text := merge_snippets sources
        depth_used := .DEEP
        total_cost_usd := deep_cost b
        latency_ms := 0
        cached := false }

/-- Embeds the depth dispatch of IntelOrchestrator.gather_intel
(src/intel/orchestrator.py lines 145-152) for an orchestrator constructed
without a cache (the constructor default).  Event emission and latency
stamping do not affect the fields the claims are about. -/
def gather_intel (query_id correlation_id : String) (depth : IntelDepth)
    (b : SourceBackends) : Except Unit IntelResult :=
  match depth with
  | .SHALLOW => gather_shallow query_id correlation_id b
  | .STANDARD => .ok (gather_standard query_id correlation_id b)
  | .DEEP => gather_deep query_id correlation_id b

/-- The source list the merge step of each depth receives before
deduplication (SHALLOW performs no merge step; its converted list is given
for uniformity). -/
def pre_dedup_sources (depth : IntelDepth) (b : SourceBackends) : List IntelSource :=
  match depth with
  | .SHALLOW => convert_search_results (ok_results b.exa_outcome) "exa"
  | .STANDARD => standard_raw_sources b
  | .DEEP => deep_raw_sources b

/-- The url dict keys a source list produces. -/
def url_keys (l : List IntelSource) : List String :=
  l.filterMap url_key

/-! ## Circuit breaker: src/intel/circuit_breaker.py

The class body of CircuitBreaker defines `call`, `_record_failure` and
`_record_success` twice each.  Python executes the class body top to
bottom, so the LATER definition of each name is the effective method.  The
state machine below embeds the effective definitions (lines 219-278
together with `_transition_to`, which both versions share); the shadowed
first definitions are dead code. -/

/-- Embeds CircuitState (src/intel/circuit_breaker.py). -/
inductive CircuitState where
  | CLOSED
  | OPEN
  | HALF_OPEN
deriving DecidableEq

/-- Embeds CircuitBreakerConfig (src/intel/circuit_breaker.py). -/
structure CircuitBreakerConfig where
  failure_threshold : Nat
  timeout_seconds : ℚ
  half_open_max_calls : Nat
  failure_window_seconds : ℚ

/-- INTEL_API_CONFIG of src/intel/circuit_breaker.py. -/
def INTEL_API_CONFIG : CircuitBreakerConfig :=
  { failure_threshold := 3
    timeout_seconds := 60
    half_open_max_calls := 1
    failure_window_seconds := 60 }

/-- The mutable attributes of a CircuitBreaker instance.  _failure_count is
always the length of _failure_timestamps under the effective definitions
and is not tracked separately. -/
structure CircuitBreakerState where
  state : CircuitState
  failure_timestamps : List ℚ
  opened_at : ℚ
  half_open_calls : Nat
deriving DecidableEq

/-- A freshly constructed breaker (CircuitBreaker.__init__). -/
def initial_breaker : CircuitBreakerState :=
  { state := .CLOSED, failure_timestamps := [], opened_at := 0, half_open_calls := 0 }

/-- Embeds CircuitBreaker._transition_to (src/intel/circuit_breaker.py
lines 108-153): no-op on the same state; counters (including the half-open
probe counter) are reset ONLY when the new state is CLOSED.  Event
emission does not change breaker state and is not modelled here. -/
def transition_to (cb : CircuitBreakerState) (new_state : CircuitState) :
    CircuitBreakerState :=
  if cb.state = new_state then cb
  else if new_state = .CLOSED then
    { cb with state := new_state, failure_timestamps := [], half_open_calls := 0 }
  else
    { cb with state := new_state }

/-- Embeds CircuitBreaker._prune_old_failures (src/intel/circuit_breaker.py
lines 219-223): keep timestamps at or after now minus the window. -/
def prune_old_failures (cfg : CircuitBreakerConfig) (now : ℚ) (ts : List ℚ) :
    List ℚ :=
  ts.filter fun t => now - cfg.failure_window_seconds ≤ t

/-- Embeds the effective CircuitBreaker._record_failure
(src/intel/circuit_breaker.py lines 225-237): append a timestamp, prune,
then trip to OPEN from HALF_OPEN on any failure, or from anywhere when the
windowed count reaches the threshold; opened_at is set to now in both
cases. -/
def record_failure (cfg : CircuitBreakerConfig) (now : ℚ)
    (cb : CircuitBreakerState) : CircuitBreakerState :=
  let ts := prune_old_failures cfg now (cb.failure_timestamps ++ [now])
  let cb := { cb with failure_timestamps := ts }
  if cb.state = .HALF_OPEN then
    transition_to { cb with opened_at := now } .OPEN
  else if cfg.failure_threshold ≤ ts.length then
    transition_to { cb with opened_at := now } .OPEN
  else
    cb

/-- Embeds the effective CircuitBreaker._record_success
(src/intel/circuit_breaker.py lines 239-245). -/
def record_success (cfg : CircuitBreakerConfig) (now : ℚ)
    (cb : CircuitBreakerState) : CircuitBreakerState :=
  if cb.state = .HALF_OPEN then
    transition_to cb .CLOSED
  else if cb.state = .CLOSED then
    { cb with failure_timestamps := prune_old_failures cfg now cb.failure_timestamps }
  else
    cb

/-- Embeds the CircuitBreaker.state property (src/intel/circuit_breaker.py
lines 91-98): reading the state auto-transitions OPEN to HALF_OPEN once
the timeout has elapsed. -/
def read_state (cfg : CircuitBreakerConfig) (now : ℚ)
    (cb : CircuitBreakerState) : CircuitBreakerState :=
  if cb.state = .OPEN ∧ cfg.timeout_seconds ≤ now - cb.opened_at then
    transition_to cb .HALF_OPEN
  else
    cb

/-- What one protected call produces for its caller. -/
inductive BreakerCallOutcome where
  | rejected_open (reopens_in_seconds : ℚ)
  | rejected_half_open
  | returned_ok
  | raised_through
deriving DecidableEq

/-- Embeds the effective CircuitBreaker.call (src/intel/circuit_breaker.py
lines 247-278): read state (auto-transition), reject when OPEN; in
HALF_OPEN first increment the probe counter and reject when it exceeds
half_open_max_calls (the increment persists); otherwise run the protected
function and record its success or failure.  fn_succeeds abstracts the
protected function. -/
def breaker_call (cfg : CircuitBreakerConfig) (now : ℚ)
    (cb : CircuitBreakerState) (fn_succeeds : Bool) :
    BreakerCallOutcome × CircuitBreakerState :=
  let cb := read_state cfg now cb
  if cb.state = .OPEN then
    (.rejected_open (max 0 (cfg.timeout_seconds - (now - cb.opened_at))), cb)
  else
    let cb :=
      if cb.state = .HALF_OPEN then { cb with half_open_calls := cb.half_open_calls + 1 }
      else cb
    if cb.state = .HALF_OPEN ∧ cfg.half_open_max_calls < cb.half_open_calls then
      (.rejected_half_open, cb)
    else if fn_succeeds then
      (.returned_ok, record_success cfg now cb)
    else
      (.raised_through, record_failure cfg now cb)

/-! ## Method shadowing and the query_id keyword: src/intel/circuit_breaker.py
and the three source call sites.

`effective_params` reproduces how Python resolves a method defined twice
in one class body: the last definition wins.  `call_py_method` reproduces
keyword-argument binding: a keyword that the effective signature does not
accept raises TypeError before the method body (and hence the wrapped
function) runs. -/

/-- The method definitions of class CircuitBreaker in source order, each
with its parameter names after self (src/intel/circuit_breaker.py).  Note
`call`, `_record_failure` and `_record_success` occur twice. -/
def circuit_breaker_class_body : List (String × List String) :=
  [("state", []),
   ("is_closed", []),
   ("is_open", []),
   ("_transition_to", ["new_state", "query_id"]),
   ("call", ["func", "query_id"]),
   ("_record_success", []),
   ("_record_failure", ["query_id"]),
   ("_prune_old_failures", []),
   ("_record_failure", []),
   ("_record_success", []),
   ("call", ["fn"]),
   ("reset", [])]

/-- Python class-body semantics: the last definition of a name is the one
bound on the class. -/
def effective_params (body : List (String × List String)) (method : String) :
    Option (List String) :=
  ((body.filter fun p => p.1 = method).getLast?).map Prod.snd

/-- Python keyword binding: every keyword must name a parameter that the
positional arguments did not already fill. -/
def binds_ok (params : List String) (npos : Nat) (kwargs : List String) : Bool :=
  decide (npos ≤ params.length) &&
    kwargs.all fun k => params.contains k && !(params.take npos).contains k

/-- Result of invoking a Python callable. -/
inductive PyOutcome (α : Type) where
  | typeError
  | value (v : α)

/-- Invoke a method of the class: resolve the effective definition, bind
arguments, and only on a successful binding run the body (abstracted by
`run`).  The second component counts how often the wrapped function ran. -/
def call_py_method {α : Type} (body : List (String × List String))
    (method : String) (npos : Nat) (kwargs : List String) (run : Unit → α) :
    PyOutcome α × Nat :=
  match effective_params body method with
  | none => (.typeError, 0)
  | some params =>
    if binds_ok params npos kwargs then (.value (run ()), 1)
    else (.typeError, 0)

/-- The breaker invocation of ExaSource.search (src/intel/sources/exa.py
lines 120-123): one positional argument and the query_id keyword. -/
def exa_breaker_call_site : Nat × List String := (1, ["query_id"])

/-- The breaker invocation of TavilySource.search
(src/intel/sources/tavily.py lines 120-123). -/
def tavily_breaker_call_site : Nat × List String := (1, ["query_id"])

/-- The breaker invocation of FirecrawlSource.scrape
(src/intel/sources/firecrawl.py lines 124-127). -/
def firecrawl_breaker_call_site : Nat × List String := (1, ["query_id"])

/-! ## Rate-limit gating: src/intel/sources/exa.py (tavily.py and
firecrawl.py are verbatim copies of the same logic). -/

/-- The exceptions a source call can surface with, as far as the
rate-limit handler distinguishes them. -/
inductive SourceExc where
  | rate_limit (retry_after_seconds : ℚ)
  | api_error
  | type_error
deriving DecidableEq

/-- Embeds the except-branch of ExaSource.search (src/intel/sources/exa.py
lines 144-150): on a RateLimitError the window is the retry delay when it
is truthy (non-zero), else 60 seconds, and rate_limited_until becomes
now + window; any other exception leaves the attribute unchanged. -/
def update_rate_limited_until (now prev : ℚ) (exc : SourceExc) : ℚ :=
  match exc with
  | .rate_limit r => now + (if r ≠ 0 then r else 60)
  | _ => prev

/-- Embeds the is_rate_limited property (src/intel/sources/exa.py lines
75-78). -/
def is_rate_limited (now rate_limited_until : ℚ) : Bool :=
  decide (now < rate_limited_until)

/-! ## Retry engine: src/intel/retry.py -/

/-- The knobs of retry_with_backoff (src/intel/retry.py lines 35-47) with
the defaults of the signature. -/
structure RetryConfig where
  max_attempts : Nat
  base_delay : ℚ
  max_delay : ℚ
  rate_limit_max_attempts : Nat
  rate_limit_base_delay : ℚ
  rate_limit_max_delay : ℚ

/-- The default parameters of retry_with_backoff (src/intel/retry.py):
3 API attempts at 1s base / 30s cap, 5 rate-limit attempts at 2s base /
32s cap.  These are also the values every source client passes. -/
def default_retry_config : RetryConfig :=
  { max_attempts := 3
    base_delay := 1
    max_delay := 30
    rate_limit_max_attempts := 5
    rate_limit_base_delay := 2
    rate_limit_max_delay := 32 }

/-- Embeds the non-rate-limit delay of retry_with_backoff
(src/intel/retry.py line 120): min(base * 2^(attempt-1), cap). -/
def api_backoff_delay (cfg : RetryConfig) (other_attempt : Nat) : ℚ :=
  min (cfg.base_delay * 2 ^ (other_attempt - 1)) cfg.max_delay

/-- The raw rate-limit exponential delay (src/intel/retry.py lines
112-115), before the Retry-After adjustment. -/
def rate_limit_backoff_delay (cfg : RetryConfig) (rl_attempt : Nat) : ℚ :=
  min (cfg.rate_limit_base_delay * 2 ^ (rl_attempt - 1)) cfg.rate_limit_max_delay

/-- Embeds the rate-limit delay including the Retry-After adjustment
(src/intel/retry.py lines 111-118): when the error carries a truthy
(non-zero) retry_after_seconds, the delay becomes the max of the backoff
and that value. -/
def rate_limit_delay (cfg : RetryConfig) (rl_attempt : Nat)
    (retry_after_seconds : ℚ) : ℚ :=
  let delay := rate_limit_backoff_delay cfg rl_attempt
  if retry_after_seconds ≠ 0 then max delay retry_after_seconds else delay

/-- Embeds the jitter step (src/intel/retry.py lines 122-123): with jitter
on, the slept duration is a uniform sample from
[0.5 * delay, 1.5 * delay]; with jitter off it is the delay itself.  The
sample is an explicit parameter. -/
def slept_delay (jitter : Bool) (delay sample : ℚ) : ℚ :=
  if jitter then sample else delay

/-- A sample the uniform(0.5 * delay, 1.5 * delay) draw can produce. -/
def valid_jitter_sample (delay sample : ℚ) : Prop :=
  delay / 2 ≤ sample ∧ sample ≤ 3 * delay / 2

/-- What one attempt of the wrapped coroutine does, as the retry loop
classifies it (src/intel/retry.py lines 84-98). -/
inductive AttemptOutcome (α : Type) where
  | ok (v : α)
  | rate_limit_failure (retry_after_seconds : ℚ)
  | api_failure
  | non_retryable

/-- How a run of retry_with_backoff ends, together with the final values
of the two attempt counters (rl_attempt, other_attempt).  `pending` is the
model artifact for an attempt stream shorter than the loop needs. -/
inductive RetryRunResult (α : Type) where
  | ok (v : α) (rl_attempt other_attempt : Nat)
  | raised_rate_limit (rl_attempt other_attempt : Nat)
  | raised_api (rl_attempt other_attempt : Nat)
  | raised_non_retryable (rl_attempt other_attempt : Nat)
  | pending (rl_attempt other_attempt : Nat)

/-- Embeds the loop of retry_with_backoff (src/intel/retry.py lines
82-137).  A RateLimitError increments rl_attempt only, any other retryable
error increments other_attempt only; the incremented counter reaching its
own budget re-raises immediately; non-retryable errors propagate at once.
The successive attempt outcomes are given as a list. -/
def retry_with_backoff_loop {α : Type} (cfg : RetryConfig) :
    List (AttemptOutcome α) → Nat → Nat → RetryRunResult α
  | [], rl_attempt, other_attempt => .pending rl_attempt other_attempt
  | o :: rest, rl_attempt, other_attempt =>
    match o with
    | .ok v => .ok v rl_attempt other_attempt
    | .non_retryable => .raised_non_retryable rl_attempt other_attempt
    | .rate_limit_failure _ =>
      let rl_attempt := rl_attempt + 1
      if cfg.rate_limit_max_attempts ≤ rl_attempt then
        .raised_rate_limit rl_attempt other_attempt
      else
        retry_with_backoff_loop cfg rest rl_attempt other_attempt
    | .api_failure =>
      let other_attempt := other_attempt + 1
      if cfg.max_attempts ≤ other_attempt then
        .raised_api rl_attempt other_attempt
      else
        retry_with_backoff_loop cfg rest rl_attempt other_attempt

/-! ## Event bus: src/intel/events.py -/

/-- Embeds EventEnvelope (src/intel/events.py) with the fields the claims
need; event_id and timestamp are generated per emit and opaque here, the
payload is a flat string map. -/
structure EventEnvelope where
  event_type : String
  source_module : String
  correlation_id : String
  payload : List (String × String)
deriving DecidableEq

/-- A subscribed handler: it either returns or raises (with a message). -/
abbrev EventHandler : Type :=
  EventEnvelope → Except String Unit

/-- Embeds the handler dispatch loop of EventBus.emit (src/intel/events.py
lines 116-126): each handler runs inside its own try/except; a raise is
converted into a logged entry (`some msg`) and the loop continues.  One
list entry per handler reached. -/
def dispatch_to_handlers (envelope : EventEnvelope) :
    List EventHandler → List (Option String)
  | [] => []
  | h :: hs =>
    (match h envelope with
     | .ok _ => none
     | .error msg => some msg) :: dispatch_to_handlers envelope hs

/-- An asyncio.Queue of envelopes with its maxsize. -/
structure SSEQueue where
  items : List EventEnvelope
  maxsize : Nat
deriving DecidableEq

/-- Embeds the put_nowait with QueueFull handling of EventBus.emit
(src/intel/events.py lines 129-134): a full queue drops the envelope. -/
def queue_offer (q : SSEQueue) (envelope : EventEnvelope) : SSEQueue :=
  if q.items.length < q.maxsize then { q with items := q.items ++ [envelope] }
  else q

/-- Everything one EventBus.emit call does that a caller or subscriber can
observe: the per-handler log entries and the updated streaming queues. -/
structure EmitEffects where
  handler_logs : List (Option String)
  sse_queues : List SSEQueue
deriving DecidableEq

/-- Embeds EventBus.emit (src/intel/events.py lines 90-136): dispatch to
every handler of the event type in order (failures logged, never
re-raised), then offer the envelope to every streaming queue.  emit
returns normally on every input: there is no exceptional outcome in its
type. -/
def bus_emit (handlers : List EventHandler) (queues : List SSEQueue)
    (envelope : EventEnvelope) : EmitEffects :=
  { handler_logs := dispatch_to_handlers envelope handlers
    sse_queues := queues.map fun q => queue_offer q envelope }

/-! ## Streaming sessions: src/backend/sse.py and src/intel/events.py

A bus streaming subscription is one queue in EventBus._sse_queues; each
SSEEventEmitter session owns one such queue (through its forwarder) plus a
local session queue.  Queues are labelled here by the session that owns
them, which is enough to observe which sessions an emit still reaches. -/

/-- The registration state of the streaming stack: which sessions hold a
bus streaming subscription (EventBus._sse_queues) and which hold a local
emitter queue (SSEEventEmitter._queues). -/
structure StreamingState where
  bus_sse_queues : List String
  emitter_queues : List String
deriving DecidableEq

/-- Embeds the registration part of SSEEventEmitter.subscribe
(src/backend/sse.py lines 27-37): create the local session queue and a bus
streaming subscription for the forwarder. -/
def sse_session_subscribe (st : StreamingState) (session_id : String) :
    StreamingState :=
  { bus_sse_queues := st.bus_sse_queues ++ [session_id]
    emitter_queues := st.emitter_queues ++ [session_id] }

/-- Embeds EventBus.sse_unsubscribe_all (src/intel/events.py lines
151-154): clears EVERY streaming queue, not just the caller session. -/
def sse_unsubscribe_all (st : StreamingState) : StreamingState :=
  { st with bus_sse_queues := [] }

/-- Embeds the finally-block of SSEEventEmitter.subscribe
(src/backend/sse.py lines 67-79): cancel the background tasks, call
bus.sse_unsubscribe_all, then delete the session entry from the local
queue map. -/
def sse_session_teardown (st : StreamingState) (session_id : String) :
    StreamingState :=
  let st := sse_unsubscribe_all st
  { st with emitter_queues := st.emitter_queues.filter fun s => s ≠ session_id }

/-- The sessions whose streaming subscription an emit still reaches
(EventBus.emit pushes to every queue in _sse_queues). -/
def emit_reaches (st : StreamingState) : List String :=
  st.bus_sse_queues

/-! ## Concrete instances used by the theorems below -/

/-- Checks that no url-less source precedes a url-bearing source: the
spec-claimed shape of a merged source list. -/
def url_bearing_before_url_less (l : List IntelSource) : Bool :=
  (l.dropWhile fun s => (url_key s).isSome).all fun s => (url_key s).isNone

/-- A neural-search hit with score 0.95 (shallow happy-path scenario). -/
def hit_a : SearchResult :=
  { url := some "https://a/1", title := "A", snippet := "sa", relevance_score := 0.95 }

/-- A neural-search hit with score 0.88. -/
def hit_b : SearchResult :=
  { url := some "https://b/2", title := "B", snippet := "sb", relevance_score := 0.88 }

/-- A neural-search hit with score 0.82. -/
def hit_c : SearchResult :=
  { url := some "https://c/3", title := "C", snippet := "sc", relevance_score := 0.82 }

/-- Backends for the shallow happy-path scenario: exa returns the three
hits above. -/
def shallow_scenario_backends : SourceBackends :=
  { exa_outcome := .ok [hit_a, hit_b, hit_c]
    tavily_outcome := .ok []
    scraped := []
    exa_rate_limited := false
    tavily_rate_limited := false }

/-- Backends where exa and tavily return the same url (exa scoring
higher), the standard-deduplication scenario of the spec. -/
def duplicate_url_backends : SourceBackends :=
  { exa_outcome := .ok
      [{ url := some "https://shared/1", title := "", snippet := "from exa",
         relevance_score := 0.9 }]
    tavily_outcome := .ok
      [{ url := some "https://shared/1", title := "", snippet := "from tavily",
         relevance_score := 0.8 }]
    scraped := []
    exa_rate_limited := false
    tavily_rate_limited := false }

/-- Backends where exa and tavily return distinct urls. -/
def distinct_url_backends : SourceBackends :=
  { exa_outcome := .ok
      [{ url := some "https://a/1", title := "", snippet := "from exa",
         relevance_score := 0.9 }]
    tavily_outcome := .ok
      [{ url := some "https://b/2", title := "", snippet := "from tavily",
         relevance_score := 0.8 }]
    scraped := []
    exa_rate_limited := false
    tavily_rate_limited := false }

/-- A url-less source scoring 0.9. -/
def source_without_url : IntelSource :=
  { source_name := "tavily", url := none, title := "", snippet := "answer text",
    relevance_score := 0.9, cost_usd := 0, latency_ms := 0 }

/-- A url-bearing source scoring 0.5. -/
def source_with_url : IntelSource :=
  { source_name := "exa", url := some "https://a/1", title := "", snippet := "page",
    relevance_score := 0.5, cost_usd := 0, latency_ms := 0 }

/-- A breaker that saw failures at t = 0, 1, 2 under the intel config:
three windowed failures reach the threshold and open the circuit with
opened_at = 2. -/
def breaker_open_after_three : CircuitBreakerState :=
  (breaker_call INTEL_API_CONFIG 2
    ((breaker_call INTEL_API_CONFIG 1
      ((breaker_call INTEL_API_CONFIG 0 initial_breaker false).2) false).2) false).2

/-- The same breaker at t = 70 (timeout elapsed): the call transitions it
to HALF_OPEN, the probe is admitted, fails, and re-opens the circuit. -/
def breaker_first_probe : BreakerCallOutcome × CircuitBreakerState :=
  breaker_call INTEL_API_CONFIG 70 breaker_open_after_three false

/-- The re-opened breaker at t = 140 (timeout elapsed again) attempting a
probe whose protected function WOULD succeed. -/
def breaker_second_probe : BreakerCallOutcome × CircuitBreakerState :=
  breaker_call INTEL_API_CONFIG 140 breaker_first_probe.2 true

/-- An attempt stream with failures of both classes: two API failures, one
rate-limit failure, then a third API failure. -/
def mixed_attempt_stream : List (AttemptOutcome Unit) :=
  [.api_failure, .rate_limit_failure 1, .api_failure, .api_failure]

/-! ## Theorems -/

/-- Claim C2: the effective (second) definition of CircuitBreaker.call
accepts only a positional fn, so the query_id keyword passed at every
source call site (ExaSource.search, TavilySource.search,
FirecrawlSource.scrape) raises TypeError during argument binding, before
the wrapped HTTP-request function is ever invoked: its invocation count is
0 and no value is ever returned. -/
theorem breaker_call_query_id_type_error :
    effective_params circuit_breaker_class_body "call" = some ["fn"] ∧
    (∀ (α : Type) (run : Unit → α),
      call_py_method circuit_breaker_class_body "call"
        exa_breaker_call_site.1 exa_breaker_call_site.2 run = (.typeError, 0)) ∧
    (∀ (α : Type) (run : Unit → α),
      call_py_method circuit_breaker_class_body "call"
        tavily_breaker_call_site.1 tavily_breaker_call_site.2 run = (.typeError, 0)) ∧
    (∀ (α : Type) (run : Unit → α),
      call_py_method circuit_breaker_class_body "call"
        firecrawl_breaker_call_site.1 firecrawl_breaker_call_site.2 run = (.typeError, 0)) :=
  ⟨rfl, fun _ _ => rfl, fun _ _ => rfl, fun _ _ => rfl⟩

/-- Claim C4, counterexample: _deduplicate_sources sorts the WHOLE merged
list by relevance_score, so a url-less source with score 0.9 ends up
before a url-bearing source with score 0.5: url-bearing sources do not
all precede url-less ones. -/
theorem merge_ordering_url_less_first_cex :
    url_bearing_before_url_less
      (deduplicate_sources [source_without_url, source_with_url]) = false := by
  norm_num [url_bearing_before_url_less, deduplicate_sources, dedup_loop,
    upsert_by_url, url_key, source_without_url, source_with_url,
    List.insertionSort, List.orderedInsert, score_desc, List.dropWhile, List.all]
  decide

/-- Claim C4, amended: every source list produced by the merge step
(_deduplicate_sources) is sorted by relevance_score in non-increasing
order across the entire list; url-bearing sources are not guaranteed to
precede url-less ones. -/
theorem merge_sorted_by_relevance (sources : List IntelSource) :
    List.Sorted score_desc (deduplicate_sources sources) := by
  unfold deduplicate_sources
  exact List.sorted_insertionSort score_desc _

/-- Claim C5, counterexample: on a final RateLimitError with retry delay
2, the source sets rate_limited_until to now + 2, not to
now + max(2, 60): the claimed 60-second floor is absent from the code. -/
theorem rate_limit_window_not_max_cex :
    update_rate_limited_until 0 0 (.rate_limit 2) ≠ 0 + max (2 : ℚ) 60 := by
  norm_num [update_rate_limited_until]

/-- Claim C5, amended: on a final RateLimitError carrying a non-zero
retry delay r, the source sets rate_limited_until to now + r (60 seconds
is used only when no delay, i.e. a zero delay, is supplied), and
is_rate_limited is true exactly while the clock is below now + r. -/
theorem rate_limit_window_amended (now prev r : ℚ) (hr : r ≠ 0) :
    update_rate_limited_until now prev (.rate_limit r) = now + r ∧
    (∀ t, is_rate_limited t (update_rate_limited_until now prev (.rate_limit r)) = true
      ↔ t < now + r) := by
  constructor
  · simp [update_rate_limited_until, hr]
  · intro t
    simp [update_rate_limited_until, is_rate_limited, hr]

/-- Witness for rate_limit_window_amended at now = 0, prev = 0, r = 2. -/
theorem rate_limit_window_amended_witness :
    update_rate_limited_until 0 0 (.rate_limit 2) = 0 + 2 ∧
    (∀ t, is_rate_limited t (update_rate_limited_until 0 0 (.rate_limit 2)) = true
      ↔ t < 0 + 2) :=
  rate_limit_window_amended 0 0 2 (by norm_num)

/-- The breaker after the failure at t = 0: one windowed failure. -/
theorem breaker_trace_step1 :
    breaker_call INTEL_API_CONFIG 0 initial_breaker false =
      (.raised_through,
       { state := .CLOSED, failure_timestamps := [0], opened_at := 0,
         half_open_calls := 0 }) := by
  simp [breaker_call, read_state, record_failure, record_success,
    transition_to, prune_old_failures, initial_breaker, INTEL_API_CONFIG,
    List.filter]

/-- The breaker after the failure at t = 1: two windowed failures. -/
theorem breaker_trace_step2 :
    breaker_call INTEL_API_CONFIG 1
      { state := .CLOSED, failure_timestamps := [0], opened_at := 0,
        half_open_calls := 0 } false =
      (.raised_through,
       { state := .CLOSED, failure_timestamps := [0, 1], opened_at := 0,
         half_open_calls := 0 }) := by
  simp [breaker_call, read_state, record_failure, record_success,
    transition_to, prune_old_failures, INTEL_API_CONFIG, List.filter]

/-- The breaker after the failure at t = 2: the threshold is reached and
the circuit opens with opened_at = 2. -/
theorem breaker_trace_step3 :
    breaker_call INTEL_API_CONFIG 2
      { state := .CLOSED, failure_timestamps := [0, 1], opened_at := 0,
        half_open_calls := 0 } false =
      (.raised_through,
       { state := .OPEN, failure_timestamps := [0, 1, 2], opened_at := 2,
         half_open_calls := 0 }) := by
  simp [breaker_call, read_state, record_failure, record_success,
    transition_to, prune_old_failures, INTEL_API_CONFIG, List.filter]
  all_goals norm_num

/-- breaker_open_after_three in explicit form. -/
theorem breaker_open_after_three_eq :
    breaker_open_after_three =
      { state := .OPEN, failure_timestamps := [0, 1, 2], opened_at := 2,
        half_open_calls := 0 } := by
  simp only [breaker_open_after_three, breaker_trace_step1, breaker_trace_step2,
    breaker_trace_step3]

/-- The first probe at t = 70 is admitted (counter 0 to 1), fails, and
re-opens the circuit with opened_at = 70; the counter stays at 1. -/
theorem breaker_first_probe_eq :
    breaker_first_probe =
      (.raised_through,
       { state := .OPEN, failure_timestamps := [70], opened_at := 70,
         half_open_calls := 1 }) := by
  rw [breaker_first_probe, breaker_open_after_three_eq]
  simp [breaker_call, read_state, record_failure, record_success,
    transition_to, prune_old_failures, INTEL_API_CONFIG, List.filter]
  all_goals norm_num
  all_goals simp

/-- The second half-open episode at t = 140 rejects its very first probe:
the counter was never reset and increments from 1 to 2 > 1. -/
theorem breaker_second_probe_eq :
    breaker_second_probe =
      (.rejected_half_open,
       { state := .HALF_OPEN, failure_timestamps := [70], opened_at := 70,
         half_open_calls := 2 }) := by
  rw [breaker_second_probe, breaker_first_probe_eq]
  simp [breaker_call, read_state, record_failure, record_success,
    transition_to, prune_old_failures, INTEL_API_CONFIG, List.filter]
  all_goals norm_num
  all_goals simp

/-- Claim C6 (the code violates it): _transition_to resets the half-open
probe counter only on a transition to CLOSED, so the counter survives a
failed probe.  Concretely, with the intel config (threshold 3, timeout
60s, 1 half-open probe): failures at t = 0, 1, 2 open the circuit; at
t = 70 the circuit goes half-open and the single probe is admitted
(counter 0 to 1) and fails, re-opening the circuit; at t = 140 the circuit
goes half-open a second time WITHOUT the counter being reset, and the very
first probe of this episode - one that would have succeeded - is rejected
with CircuitOpenError instead of the up-to-one admission the spec
requires. -/
theorem half_open_probe_counter_never_reset :
    breaker_open_after_three.state = .OPEN ∧
    breaker_open_after_three.half_open_calls = 0 ∧
    breaker_first_probe.1 = .raised_through ∧
    breaker_first_probe.2.state = .OPEN ∧
    breaker_first_probe.2.half_open_calls = 1 ∧
    breaker_second_probe.1 = .rejected_half_open ∧
    breaker_second_probe.2.half_open_calls = 2 := by
  simp [breaker_open_after_three_eq, breaker_first_probe_eq, breaker_second_probe_eq]

/-- Claim C7, counterexample: with the default retry parameters, a first
rate-limit failure has backoff 2s; a Retry-After of 10s lifts the
pre-jitter delay to 10s, but the uniform jitter then samples from
[5, 15], and the sample 5 yields an actual sleep of 5s, below the 10s
Retry-After: the floor does not hold for every jitter sample. -/
theorem retry_after_jitter_below_floor_cex :
    rate_limit_backoff_delay default_retry_config 1 ≤ 10 ∧
    valid_jitter_sample (rate_limit_delay default_retry_config 1 10) 5 ∧
    slept_delay true (rate_limit_delay default_retry_config 1 10) 5 < 10 := by
  norm_num [rate_limit_backoff_delay, rate_limit_delay, slept_delay,
    valid_jitter_sample, default_retry_config]

/-- Claim C7, amended: when a retried RateLimitError carries a non-zero
retry delay at least the computed exponential backoff, the PRE-JITTER
delay equals that retry delay exactly; every jitter sample keeps the
actual sleep at or above HALF the retry delay, and with jitter disabled
the sleep equals the retry delay. -/
theorem retry_after_floor_amended (cfg : RetryConfig) (rl_attempt : Nat)
    (retry_after_seconds sample : ℚ)
    (hge : rate_limit_backoff_delay cfg rl_attempt ≤ retry_after_seconds)
    (hnz : retry_after_seconds ≠ 0)
    (hsample : valid_jitter_sample
      (rate_limit_delay cfg rl_attempt retry_after_seconds) sample) :
    rate_limit_delay cfg rl_attempt retry_after_seconds = retry_after_seconds ∧
    retry_after_seconds / 2 ≤
      slept_delay true (rate_limit_delay cfg rl_attempt retry_after_seconds) sample ∧
    slept_delay false (rate_limit_delay cfg rl_attempt retry_after_seconds) sample
      = retry_after_seconds := by
  have hd : rate_limit_delay cfg rl_attempt retry_after_seconds = retry_after_seconds := by
    simp [rate_limit_delay, hnz, max_eq_right hge]
  refine ⟨hd, ?_, by simp [slept_delay, hd]⟩
  have h1 := hsample.1
  rw [hd] at h1
  simpa [slept_delay] using h1

/-- Witness for retry_after_floor_amended: default config, first
rate-limit attempt, Retry-After 10, jitter sample 5. -/
theorem retry_after_floor_amended_witness :
    rate_limit_delay default_retry_config 1 10 = 10 ∧
    (10 : ℚ) / 2 ≤ slept_delay true (rate_limit_delay default_retry_config 1 10) 5 ∧
    slept_delay false (rate_limit_delay default_retry_config 1 10) 5 = 10 :=
  retry_after_floor_amended default_retry_config 1 10 5
    (by norm_num [rate_limit_backoff_delay, default_retry_config])
    (by norm_num)
    (by norm_num [valid_jitter_sample, rate_limit_delay, rate_limit_backoff_delay,
      default_retry_config])

/-- Claim C10 (the code violates it): tearing down streaming session a
calls EventBus.sse_unsubscribe_all, which clears EVERY streaming
subscription on the bus.  With sessions a and b live, session b is
reached by emits before the teardown of a, and is no longer reached by
any emit afterwards, even though only its local emitter queue survives. -/
theorem sse_teardown_clears_all_sessions :
    "session-b" ∈ emit_reaches
      (sse_session_subscribe (sse_session_subscribe ⟨[], []⟩ "session-a") "session-b") ∧
    (sse_session_teardown
      (sse_session_subscribe (sse_session_subscribe ⟨[], []⟩ "session-a") "session-b")
      "session-a").bus_sse_queues = [] ∧
    "session-b" ∉ emit_reaches
      (sse_session_teardown
        (sse_session_subscribe (sse_session_subscribe ⟨[], []⟩ "session-a") "session-b")
        "session-a") ∧
    (sse_session_teardown
      (sse_session_subscribe (sse_session_subscribe ⟨[], []⟩ "session-a") "session-b")
      "session-a").emitter_queues = ["session-b"] := by
  decide

/-- Sum of a constant-valued map. -/
theorem sum_map_const {β : Type} (l : List β) (c : ℚ) :
    (l.map fun _ => c).sum = l.length * c := by
  induction l with
  | nil => simp
  | cons x xs ih => simp [ih]; ring

/-- Cost sums split over concatenation. -/
theorem sum_source_costs_append (l1 l2 : List IntelSource) :
    sum_source_costs (l1 ++ l2) = sum_source_costs l1 + sum_source_costs l2 := by
  simp [sum_source_costs]

/-- Cost sums are invariant under permutation. -/
theorem sum_source_costs_perm {l1 l2 : List IntelSource} (h : l1.Perm l2) :
    sum_source_costs l1 = sum_source_costs l2 :=
  (h.map IntelSource.cost_usd).sum_eq

/-- Every converted source carries the same per-result cost, so the sum is
count times that cost. -/
theorem sum_convert (rs : List SearchResult) (source_name : String) :
    sum_source_costs (convert_search_results rs source_name)
      = rs.length * per_result_cost source_name rs.length := by
  simp only [sum_source_costs, convert_search_results, List.map_map, Function.comp]
  exact sum_map_const rs _

/-- For exa the converted cost sum is count times the per-result fee. -/
theorem sum_convert_exa (rs : List SearchResult) :
    sum_source_costs (convert_search_results rs "exa")
      = rs.length * EXA_COST_PER_RESULT := by
  rw [sum_convert]
  simp [per_result_cost]

/-- For tavily the flat fee is spread over the results, so the converted
cost sum is the flat fee when any results came back and 0 otherwise. -/
theorem sum_convert_tavily (rs : List SearchResult) :
    sum_source_costs (convert_search_results rs "tavily")
      = if rs ≠ [] then TAVILY_COST_PER_SEARCH else 0 := by
  rw [sum_convert]
  cases rs with
  | nil => simp
  | cons r rest =>
    have hne : ((r :: rest).length : ℚ) ≠ 0 := by
      rw [List.length_cons]
      exact_mod_cast Nat.succ_ne_zero rest.length
    have hmax : max (r :: rest).length 1 = (r :: rest).length := by
      simp [Nat.succ_le_iff]
    simp only [per_result_cost, hmax]
    rw [if_neg (by simp), if_pos (by simp)]
    field_simp

/-- Fire-source cost sum: one page fee per scraped page. -/
theorem sum_fire (scs : List ScrapedContent) :
    sum_source_costs (scs.map fire_source_of) = scs.length * COST_PER_PAGE := by
  simp only [sum_source_costs, List.map_map, Function.comp, fire_source_of]
  exact sum_map_const scs _

/-- Inserting a source whose url key is fresh appends it to the dict. -/
theorem upsert_fresh {seen : List IntelSource} {s : IntelSource} {u : String}
    (hu : url_key s = some u) (hnot : u ∉ url_keys seen) :
    upsert_by_url seen s = seen ++ [s] := by
  induction seen with
  | nil => simp [upsert_by_url]
  | cons t ts ih =>
    have hne : ¬ url_key t = url_key s := by
      intro heq
      apply hnot
      rw [hu] at heq
      simp [url_keys, List.filterMap_cons, heq]
    have hnot2 : u ∉ url_keys ts := by
      intro hmem
      apply hnot
      simp only [url_keys, List.filterMap_cons]
      cases h : url_key t with
      | none => simpa [url_keys] using hmem
      | some v => simp [url_keys] at hmem ⊢; exact Or.inr hmem
    simp [upsert_by_url, hne, ih hnot2]

/-- With pairwise-fresh url keys the dedup loop merges nothing: it just
splits the list into its url-bearing and url-less parts. -/
theorem dedup_loop_nodup (l : List IntelSource) :
    ∀ seen no_url : List IntelSource,
      (url_keys seen ++ url_keys l).Nodup →
      dedup_loop seen no_url l =
        (seen ++ l.filter (fun s => (url_key s).isSome),
         no_url ++ l.filter (fun s => !(url_key s).isSome)) := by
  induction l with
  | nil =>
    intro seen no_url _
    simp [dedup_loop]
  | cons s rest ih =>
    intro seen no_url h
    cases hk : url_key s with
    | none =>
      have hkeys : url_keys (s :: rest) = url_keys rest := by
        simp [url_keys, List.filterMap_cons, hk]
      rw [hkeys] at h
      have hcond : (url_key s).isSome = false := by simp [hk]
      simp only [dedup_loop, hcond, Bool.false_eq_true, if_false,
        List.filter_cons, Bool.not_false]
      rw [ih (seen) (no_url ++ [s]) h]
      simp [hcond]
    | some u =>
      have hkeys : url_keys (s :: rest) = u :: url_keys rest := by
        simp [url_keys, List.filterMap_cons, hk]
      rw [hkeys] at h
      have hu_not_seen : u ∉ url_keys seen := by
        intro hmem
        have hdisj := (List.nodup_append.mp h).2.2
        exact hdisj hmem (List.mem_cons_self u _)
      have hcond : (url_key s).isSome = true := by simp [hk]
      have hseen2 : url_keys (seen ++ [s]) = url_keys seen ++ [u] := by
        simp [url_keys, List.filterMap_append, List.filterMap_cons, hk]
      have h2 : (url_keys (seen ++ [s]) ++ url_keys rest).Nodup := by
        rw [hseen2, List.append_assoc]
        simpa using h
      simp only [dedup_loop, hcond, if_true, List.filter_cons]
      rw [upsert_fresh hk hu_not_seen, ih (seen ++ [s]) no_url h2]
      simp [hcond]

/-- With pairwise-distinct url keys, deduplication drops nothing: the
merged list is a permutation of its input. -/
theorem dedup_perm_of_nodup {l : List IntelSource} (h : (url_keys l).Nodup) :
    (deduplicate_sources l).Perm l := by
  unfold deduplicate_sources
  have hloop := dedup_loop_nodup l [] [] (by simpa [url_keys] using h)
  rw [hloop]
  refine (List.perm_insertionSort score_desc _).trans ?_
  simpa using List.filter_append_perm (fun s => (url_key s).isSome) l

/-- With pairwise-distinct url keys, deduplication preserves the cost sum. -/
theorem dedup_sum_of_nodup {l : List IntelSource} (h : (url_keys l).Nodup) :
    sum_source_costs (deduplicate_sources l) = sum_source_costs l :=
  sum_source_costs_perm (dedup_perm_of_nodup h)

/-- The STANDARD cost equals the cost sum of the pre-dedup source list. -/
theorem standard_cost_eq_raw_sum (b : SourceBackends) :
    standard_cost b = sum_source_costs (standard_raw_sources b) := by
  rw [standard_cost, standard_raw_sources, sum_source_costs_append,
    sum_convert_exa, sum_convert_tavily]

/-- The DEEP cost equals the cost sum of the pre-dedup source list. -/
theorem deep_cost_eq_raw_sum (b : SourceBackends) :
    deep_cost b = sum_source_costs (deep_raw_sources b) := by
  rw [deep_cost, deep_raw_sources, sum_source_costs_append,
    sum_convert_exa, sum_fire]

/-- Claim C3, amended test. -/
theorem cost_sum_no_duplicate_urls (query_id correlation_id : String)
    (depth : IntelDepth) (b : SourceBackends) (r : IntelResult)
    (hok : gather_intel query_id correlation_id depth b = .ok r)
    (hnodup : (url_keys (pre_dedup_sources depth b)).Nodup) :
    |r.total_cost_usd - sum_source_costs r.sources| < 1 / 1000000000 := by
  cases depth with
  | SHALLOW =>
    rw [gather_intel, gather_shallow] at hok
    cases hb : b.exa_outcome with
    | error e => rw [hb] at hok; cases hok
    | ok rs =>
      rw [hb] at hok
      have hr := (Except.ok.injEq _ _).mp hok
      subst hr
      simp only [sum_convert_exa]
      norm_num
  | STANDARD =>
    rw [gather_intel] at hok
    have hr := (Except.ok.injEq _ _).mp hok
    subst hr
    rw [pre_dedup_sources] at hnodup
    simp only [gather_standard]
    rw [dedup_sum_of_nodup hnodup, standard_cost_eq_raw_sum]
    norm_num
  | DEEP =>
    rw [gather_intel, gather_deep] at hok
    cases hb : b.exa_outcome with
    | error e => rw [hb] at hok; cases hok
    | ok rs =>
      rw [hb] at hok
      have hr := (Except.ok.injEq _ _).mp hok
      subst hr
      rw [pre_dedup_sources] at hnodup
      simp only []
      rw [dedup_sum_of_nodup hnodup, deep_cost_eq_raw_sum]
      norm_num

/-- Claim C3, counterexample: exa and tavily both return
https://shared/1 (exa scoring higher).  The merge drops the tavily
source but its flat fee stays in the total: total_cost_usd = 0.0105 while
the sources in the Result sum to 0.0005, a 0.01 gap far above 1e-9. -/
theorem cost_sum_duplicate_url_cex :
    gather_intel "query-1" "corr-1" .STANDARD duplicate_url_backends =
      .ok (gather_standard "query-1" "corr-1" duplicate_url_backends) ∧
    (gather_standard "query-1" "corr-1" duplicate_url_backends).total_cost_usd = 0.0105 ∧
    sum_source_costs
      (gather_standard "query-1" "corr-1" duplicate_url_backends).sources = 0.0005 ∧
    ¬ |(gather_standard "query-1" "corr-1" duplicate_url_backends).total_cost_usd -
        sum_source_costs
          (gather_standard "query-1" "corr-1" duplicate_url_backends).sources| <
      1 / 1000000000 := by
  refine ⟨rfl, ?_, ?_, ?_⟩
  · norm_num [gather_standard, standard_cost, standard_exa_results,
      standard_tavily_results, ok_results, duplicate_url_backends,
      EXA_COST_PER_RESULT, TAVILY_COST_PER_SEARCH]
  · norm_num [gather_standard, standard_raw_sources, standard_exa_results,
      standard_tavily_results, ok_results, duplicate_url_backends,
      deduplicate_sources, dedup_loop, upsert_by_url, url_key,
      convert_search_results, per_result_cost, sum_source_costs,
      List.insertionSort, List.orderedInsert, score_desc,
      EXA_COST_PER_RESULT, TAVILY_COST_PER_SEARCH]
  · norm_num [gather_standard, standard_cost, standard_raw_sources,
      standard_exa_results, standard_tavily_results, ok_results,
      duplicate_url_backends, deduplicate_sources, dedup_loop, upsert_by_url,
      url_key, convert_search_results, per_result_cost, sum_source_costs,
      List.insertionSort, List.orderedInsert, score_desc,
      EXA_COST_PER_RESULT, TAVILY_COST_PER_SEARCH]
    rw [abs_of_nonneg (by norm_num : (0:ℚ) ≤ 1/100)]
    norm_num

/-- Witness for cost_sum_no_duplicate_urls: a STANDARD query whose exa and
tavily hits carry distinct urls. -/
theorem cost_sum_no_duplicate_urls_witness :
    |(gather_standard "query-1" "corr-1" distinct_url_backends).total_cost_usd -
        sum_source_costs
          (gather_standard "query-1" "corr-1" distinct_url_backends).sources| <
      1 / 1000000000 :=
  cost_sum_no_duplicate_urls "query-1" "corr-1" .STANDARD distinct_url_backends
    (gather_standard "query-1" "corr-1" distinct_url_backends) rfl
    (by simp [pre_dedup_sources, standard_raw_sources, standard_exa_results,
      standard_tavily_results, ok_results, distinct_url_backends,
      convert_search_results, url_keys, url_key, List.filterMap_append])

/-- Claim C1: a Shallow query whose neural-search backend returns three
hits scoring 0.95, 0.88, 0.82 with pairwise-distinct urls yields a Result
with exactly 3 sources, total_cost_usd within 1e-9 of 0.0015, and first
source relevance 0.95. -/
theorem shallow_happy_path (query_id correlation_id : String)
    (h1 h2 h3 : SearchResult) (b : SourceBackends)
    (hexa : b.exa_outcome = .ok [h1, h2, h3])
    (hs1 : h1.relevance_score = 0.95)
    (_hs2 : h2.relevance_score = 0.88)
    (_hs3 : h3.relevance_score = 0.82)
    (u1 u2 u3 : String)
    (_hu1 : h1.url = some u1) (_hu2 : h2.url = some u2) (_hu3 : h3.url = some u3)
    (_h12 : u1 ≠ u2) (_h13 : u1 ≠ u3) (_h23 : u2 ≠ u3) :
    ∃ r, gather_intel query_id correlation_id .SHALLOW b = .ok r ∧
      r.sources.length = 3 ∧
      |r.total_cost_usd - 0.0015| < 1 / 1000000000 ∧
      r.sources.head?.map IntelSource.relevance_score = some 0.95 := by
  rw [gather_intel, gather_shallow, hexa]
  refine ⟨_, rfl, ?_, ?_, ?_⟩
  · simp [convert_search_results]
  · norm_num [EXA_COST_PER_RESULT]
  · simp [convert_search_results, hs1]

/-- Witness for shallow_happy_path at the concrete three-hit backend. -/
theorem shallow_happy_path_witness :
    ∃ r, gather_intel "query-1" "corr-1" .SHALLOW shallow_scenario_backends = .ok r ∧
      r.sources.length = 3 ∧
      |r.total_cost_usd - 0.0015| < 1 / 1000000000 ∧
      r.sources.head?.map IntelSource.relevance_score = some 0.95 :=
  shallow_happy_path "query-1" "corr-1" hit_a hit_b hit_c shallow_scenario_backends
    rfl rfl rfl rfl "https://a/1" "https://b/2" "https://c/3" rfl rfl rfl
    (by decide) (by decide) (by decide)

/-- Claim C8: in retry_with_backoff, rate-limit failures advance only the
rate-limit counter and other retryable failures only the API counter; the
loop re-raises exactly when the counter of the failing class reaches its
own budget, at which moment the other counter is still strictly under its
budget (failures of one class never consume the other budget). -/
theorem retry_budget_separation {α : Type} (cfg : RetryConfig)
    (outcomes : List (AttemptOutcome α)) (rl_start other_start : Nat)
    (hrl : rl_start < cfg.rate_limit_max_attempts)
    (hoth : other_start < cfg.max_attempts) :
    match retry_with_backoff_loop cfg outcomes rl_start other_start with
    | .ok _ rl oth => rl < cfg.rate_limit_max_attempts ∧ oth < cfg.max_attempts
    | .raised_rate_limit rl oth =>
        rl = cfg.rate_limit_max_attempts ∧ oth < cfg.max_attempts
    | .raised_api rl oth => oth = cfg.max_attempts ∧ rl < cfg.rate_limit_max_attempts
    | .raised_non_retryable rl oth =>
        rl < cfg.rate_limit_max_attempts ∧ oth < cfg.max_attempts
    | .pending rl oth => rl < cfg.rate_limit_max_attempts ∧ oth < cfg.max_attempts := by
  induction outcomes generalizing rl_start other_start with
  | nil => exact ⟨hrl, hoth⟩
  | cons o rest ih =>
    cases o with
    | ok v => exact ⟨hrl, hoth⟩
    | non_retryable => exact ⟨hrl, hoth⟩
    | rate_limit_failure r =>
      by_cases h : cfg.rate_limit_max_attempts ≤ rl_start + 1
      · simp only [retry_with_backoff_loop, if_pos h]
        exact ⟨Nat.le_antisymm (Nat.succ_le_of_lt hrl) h, hoth⟩
      · simp only [retry_with_backoff_loop, if_neg h]
        exact ih (rl_start + 1) other_start (Nat.lt_of_not_le h) hoth
    | api_failure =>
      by_cases h : cfg.max_attempts ≤ other_start + 1
      · simp only [retry_with_backoff_loop, if_pos h]
        exact ⟨Nat.le_antisymm (Nat.succ_le_of_lt hoth) h, hrl⟩
      · simp only [retry_with_backoff_loop, if_neg h]
        exact ih rl_start (other_start + 1) hrl (Nat.lt_of_not_le h)

/-- Witness for retry_budget_separation: default budgets (3 API, 5 rate
limit) over a stream with two API failures, one rate-limit failure, and a
third API failure; the run raises the API error at its third API failure
with the rate-limit counter at 1, untouched by the API failures. -/
theorem retry_budget_separation_witness :
    match retry_with_backoff_loop default_retry_config mixed_attempt_stream 0 0 with
    | .ok _ rl oth =>
        rl < default_retry_config.rate_limit_max_attempts ∧
          oth < default_retry_config.max_attempts
    | .raised_rate_limit rl oth =>
        rl = default_retry_config.rate_limit_max_attempts ∧
          oth < default_retry_config.max_attempts
    | .raised_api rl oth =>
        oth = default_retry_config.max_attempts ∧
          rl < default_retry_config.rate_limit_max_attempts
    | .raised_non_retryable rl oth =>
        rl < default_retry_config.rate_limit_max_attempts ∧
          oth < default_retry_config.max_attempts
    | .pending rl oth =>
        rl < default_retry_config.rate_limit_max_attempts ∧
          oth < default_retry_config.max_attempts :=
  retry_budget_separation default_retry_config mixed_attempt_stream 0 0
    (by decide) (by decide)

/-- Every handler reached produces one log entry. -/
theorem dispatch_length (envelope : EventEnvelope) (hs : List EventHandler) :
    (dispatch_to_handlers envelope hs).length = hs.length := by
  induction hs with
  | nil => rfl
  | cons h rest ih => simp [dispatch_to_handlers, ih]

/-- Dispatch distributes over concatenation of handler lists. -/
theorem dispatch_append (envelope : EventEnvelope) (hs1 hs2 : List EventHandler) :
    dispatch_to_handlers envelope (hs1 ++ hs2) =
      dispatch_to_handlers envelope hs1 ++ dispatch_to_handlers envelope hs2 := by
  induction hs1 with
  | nil => rfl
  | cons h rest ih => simp [dispatch_to_handlers, ih]

/-- Claim C9: with any handler list containing a raising handler at any
position, emit still reaches every handler (one log entry per handler,
with the failure logged at its position) and still offers the envelope to
every streaming queue; emit itself returns its effects, never the
exception. -/
theorem emit_handler_isolation (pre post : List EventHandler) (msg : String)
    (queues : List SSEQueue) (envelope : EventEnvelope) :
    (bus_emit (pre ++ (fun _ => .error msg) :: post) queues envelope).handler_logs.length
        = pre.length + 1 + post.length ∧
    (bus_emit (pre ++ (fun _ => .error msg) :: post) queues envelope).handler_logs[pre.length]?
        = some (some msg) ∧
    (bus_emit (pre ++ (fun _ => .error msg) :: post) queues envelope).sse_queues
        = queues.map (fun q => queue_offer q envelope) := by
  refine ⟨?_, ?_, rfl⟩
  · simp [bus_emit, dispatch_length]
    omega
  · simp only [bus_emit, dispatch_append]
    rw [List.getElem?_append_right (dispatch_length envelope pre).le]
    simp [dispatch_length, dispatch_to_handlers]
